import Mathlib

/-
Shallow embedding of `src/git_analytics.py` (class GitAnalytics and its helpers).

Modelling conventions:
- External `git` invocations are modelled at the record level: the spec's
  output contract (section 6) is "one logical record per line, empty string on
  no matches", so a query result is a `List String` of records (or, for the
  commit-listing queries, the list of `Commit`s the all-refs traversal yields,
  possibly with duplicates, as the spec's data model allows).
- Machine-level failures are explicit: a raw command result is a `CmdResult`
  (returncode, stdout, stderr); `run_git_command` turns it into trimmed output
  plus the printed diagnostic lines, swallowing the non-zero-exit exception
  exactly as the Python code does.
- Python `dict` values are insertion-ordered association lists
  `List (String × Nat)`; `Counter(...).most_common()` is a stable sort by
  descending count; `sorted` is a stable insertion sort.
- The filesystem is a structure of predicates over absolute paths, an absolute
  path being its list of components; the process working directory (`cwd`) is
  distinct from the repository path, as in the Python process model.
- Date strings handed to git are modelled by their day-number value (`Nat`);
  git's date filtering is interval containment on that value.
-/

set_option autoImplicit false

namespace GitStat

/-! ### Python string primitives -/

/-- Python whitespace characters recognised by `str.strip()`. -/
def isPySpace (c : Char) : Bool :=
  c = ' ' || c = '\t' || c = '\n' || c = '\r' || c = '\x0b' || c = '\x0c'

/-- Model of Python `str.strip()`. -/
def pyStrip (s : String) : String :=
  String.mk (((s.data.dropWhile isPySpace).reverse.dropWhile isPySpace).reverse)

/-- Split a character list at every occurrence of `c`, keeping empty pieces,
as Python `str.split(sep)` does for a one-character separator. -/
def splitCharAux (c : Char) : List Char → List Char → List String
  | acc, [] => [String.mk acc.reverse]
  | acc, x :: xs =>
    if x = c then String.mk acc.reverse :: splitCharAux c [] xs
    else splitCharAux c (x :: acc) xs

/-- Model of Python `s.split(c)` for a single-character separator. -/
def pySplitChar (c : Char) (s : String) : List String :=
  splitCharAux c [] s.data

/-- Lexicographic comparison of character lists (Python string `<=`). -/
def lexLe : List Char → List Char → Bool
  | [], _ => true
  | _ :: _, [] => false
  | a :: as, b :: bs => if a = b then lexLe as bs else decide (a < b)

/-- Does `big` start with `small`? -/
def listPrefixOf : List Char → List Char → Bool
  | [], _ => true
  | _ :: _, [] => false
  | a :: as, b :: bs => a = b && listPrefixOf as bs

/-- Is `sub` a contiguous sublist of `l`? (Python `sub in s`.) -/
def listSub : List Char → List Char → Bool
  | _, [] => true
  | [], _ :: _ => false
  | a :: as, b :: bs => listPrefixOf (b :: bs) (a :: as) || listSub as (b :: bs)

/-- Model of Python substring containment `sub in s`. -/
def strHasSub (s sub : String) : Bool := listSub s.data sub.data

/-- Digit accumulation for `pyInt`, allowing single underscores between
digits as Python `int()` does. -/
def pyDigitsAux : Nat → List Char → Option Nat
  | acc, [] => some acc
  | _, ['_'] => none
  | acc, '_' :: c :: rest =>
    if c.isDigit then pyDigitsAux (acc * 10 + (c.toNat - 48)) rest else none
  | acc, c :: rest =>
    if c.isDigit then pyDigitsAux (acc * 10 + (c.toNat - 48)) rest else none

/-- Nonempty digit run (first character must be a digit). -/
def pyDigits : List Char → Option Nat
  | [] => none
  | c :: rest => if c.isDigit then pyDigitsAux (c.toNat - 48) rest else none

/-- Model of Python `int(s)`: optional surrounding whitespace, optional sign,
then a nonempty digit run; `none` models the `ValueError` branch. -/
def pyInt (s : String) : Option Int :=
  let cs := ((s.data.dropWhile isPySpace).reverse.dropWhile isPySpace).reverse
  match cs with
  | '+' :: rest => (pyDigits rest).map (fun n => (n : Int))
  | '-' :: rest => (pyDigits rest).map (fun n => -(n : Int))
  | rest => (pyDigits rest).map (fun n => (n : Int))

/-! ### Insertion-ordered dictionaries and Counter -/

/-- `m[k] += v` on an insertion-ordered dictionary (`defaultdict(int)` /
`Counter` update). -/
def dictAdd : List (String × Nat) → String → Nat → List (String × Nat)
  | [], k, v => [(k, v)]
  | (k0, v0) :: rest, k, v =>
    if k0 = k then (k0, v0 + v) :: rest else (k0, v0) :: dictAdd rest k v

/-- `m[k] = v` on an insertion-ordered dictionary. -/
def dictSet : List (String × Nat) → String → Nat → List (String × Nat)
  | [], k, v => [(k, v)]
  | (k0, v0) :: rest, k, v =>
    if k0 = k then (k0, v) :: rest else (k0, v0) :: dictSet rest k v

/-- Sum of the values of a dictionary. -/
def sumValues (m : List (String × Nat)) : Nat := (m.map Prod.snd).sum

/-- Model of `collections.Counter(xs)` (insertion-ordered frequency map). -/
def counterOf (xs : List String) : List (String × Nat) :=
  xs.foldl (fun m x => dictAdd m x 1) []

/-- Stable insertion into a sorted list: `x` is placed before the first
element `y` with `le x y`. -/
def insertByLe {α : Type} (le : α → α → Bool) (x : α) : List α → List α
  | [] => [x]
  | y :: ys => if le x y then x :: y :: ys else y :: insertByLe le x ys

/-- Stable insertion sort (Python `sorted` is a stable sort). -/
def insortBy {α : Type} (le : α → α → Bool) (l : List α) : List α :=
  l.foldr (insertByLe le) []

/-- Descending-by-count comparison used by `Counter.most_common`,
`sorted(key=count, reverse=True)` and the top-extension / top-file rankings. -/
def byCountDesc (a b : String × Nat) : Bool := decide (b.2 ≤ a.2)

/-- Model of `Counter.most_common()`: stable sort by descending count
(ties keep first-insertion order). -/
def most_common (m : List (String × Nat)) : List (String × Nat) :=
  insortBy byCountDesc m

/-- Ascending Python-tuple comparison on `(key, value)` pairs, used by
`sorted(dict.items())` in the year-histogram rendering. -/
def pairAscLe (a b : String × Nat) : Bool :=
  if a.1 = b.1 then decide (a.2 ≤ b.2) else lexLe a.1.data b.1.data

/-- Model of Python `max(items, key=value)`: first maximal element wins. -/
def maxByCount (l : List (String × Nat)) : Option (String × Nat) :=
  l.foldl
    (fun acc x =>
      match acc with
      | none => some x
      | some m => if m.2 < x.2 then some x else some m) none

/-! ### Paths and filesystem -/

/-- A Python path: absolute or relative, with its components. -/
structure PyPath where
  isAbs : Bool
  comps : List String
deriving DecidableEq

/-- Model of `os.path.abspath`: relative paths are joined onto the process
working directory. -/
def abspath (cwd : List String) (p : PyPath) : List String :=
  if p.isAbs then p.comps else cwd ++ p.comps

/-- Model of `os.path.dirname` on an absolute components list; the root `[]`
is its own dirname, as `dirname(sep) = sep`. -/
def dirname (p : List String) : List String := p.dropLast

/-- Model of `os.path.basename` on an absolute components list. -/
def basename (p : List String) : String := p.getLastD ""

/-- Resolution of a relative path string against the process working
directory, as `os.path.isfile` / `open` do for relative arguments. -/
def resolveRel (cwd : List String) (file : String) : List String :=
  cwd ++ pySplitChar '/' file

/-- The filesystem visible to the process: working directory, directory and
regular-file predicates, and the line count of a readable file (`none` models
`open`/`readlines` raising, the `except: continue` branch). -/
structure FS where
  cwd : List String
  isdir : List String → Bool
  isfile : List String → Bool
  fileLines : List String → Option Nat

/-! ### External command results -/

/-- Captured result of one external command: `subprocess.run(...,
capture_output=True)`. -/
structure CmdResult where
  returncode : Nat
  stdout : String
  stderr : String
deriving DecidableEq

/-- Embedding of `GitAnalytics.run_git_command` applied to the command's
captured result: on exit 0 the trimmed standard output and no diagnostics;
on non-zero exit (`check=True` raises `CalledProcessError`, caught here) the
empty string plus the two printed diagnostic lines. The exception never
escapes. -/
def run_git_command (r : CmdResult) (command : List String) : String × List String :=
  if r.returncode = 0 then (pyStrip r.stdout, [])
  else ("", ["Git command failed: " ++ String.intercalate " " command,
             "Error: " ++ r.stderr])

/-! ### Repository model -/

/-- One commit as the history queries see it: content hash, author date as a
day number (for git's `--since`/`--until`/`30 days ago` filtering), its
`--date=short` and `%aD` renderings, the file paths of its `--name-only`
records and the raw lines of its `--numstat` records. -/
structure Commit where
  hash : String
  date : Nat
  shortDate : String
  fullDate : String
  files : List String
  numstat : List String
deriving DecidableEq

/-- The date window from `--start-date` / `--end-date`
(`GitAnalytics.start_date` / `end_date`); `_build_date_filter` appends
`--since` and `--until` for the set bounds. -/
structure DateFilter where
  startB : Option Nat
  endB : Option Nat
deriving DecidableEq

/-- Does a commit pass the `--since`/`--until` window? -/
def matchesFilter (f : DateFilter) (c : Commit) : Bool :=
  (f.startB.all fun s => decide (s ≤ c.date)) &&
  (f.endB.all fun e => decide (c.date ≤ e))

/-- The extra `--since=30 days ago` bound of the recent-commits query. -/
def recentPred (now : Nat) (c : Commit) : Bool := decide (now ≤ c.date + 30)

/-- Outcome of a hosting-CLI listing attempt, the black-box composition of
the subprocess call (`check=True`) and `json.loads`. -/
inductive ListOutcome where
  | fail
  | badJson
  | items : Nat → ListOutcome
deriving DecidableEq

/-- Environment of `get_pull_requests`: the two hosting CLIs, the remote-url
query result and the REST call outcome (`none` models a raised network
error, `some (status, total_count)` an HTTP response). -/
structure PrEnv where
  ghInstalled : Bool
  ghAuthCode : Nat
  ghList : ListOutcome
  glabInstalled : Bool
  glab : ListOutcome
  remoteUrl : CmdResult
  httpResult : Option (Nat × Nat)
deriving DecidableEq

/-- The full run environment of one `GitAnalytics` invocation: the author's
commits as the all-refs traversal yields them (possibly with duplicates, per
the spec's data model), the configured date filter, the current day number
and clock rendering, the `git branch -r` records, the per-ref author log, a
black box for `datetime.strptime(...,'%a, %d %b %Y %H:%M:%S %z')` followed by
`strftime('%A')` (`none` models `ValueError`), the filesystem, the configured
repository path, the `rev-parse --git-dir` probe result and the pull-request
sources. -/
structure Env where
  repo : List Commit
  filter : DateFilter
  now : Nat
  nowStr : String
  branches : List String
  branchLog : String → List Commit
  parseWeekday : String → Option String
  fs : FS
  repoPath : PyPath
  revParse : CmdResult
  pr : PrEnv

/-- The author's commits passing the date filter, as every `--all` history
query of the collectors sees them. -/
def filteredCommits (env : Env) : List Commit :=
  env.repo.filter (matchesFilter env.filter)

/-- Embedding of `GitAnalytics.check_user_exists`: the `-1`-bounded oneline
listing is nonempty exactly when some commit matches. -/
def check_user_exists (env : Env) : Bool :=
  !(filteredCommits env).isEmpty

/-! ### Repository locator -/

/-- The ancestor walk of `validate_repo` lines 57-64: from a starting
absolute directory, while the directory differs from its parent, return the
first directory containing a `.git` subdirectory. Written with fuel (one unit
per path component) so that it reduces; the walk strictly shortens the path,
so the fuel never runs out before the root. -/
def walkAux (fs : FS) : Nat → List String → Option (List String)
  | 0, _ => none
  | _ + 1, [] => none
  | fuel + 1, d :: ds =>
    if fs.isdir ((d :: ds) ++ [".git"]) then some (d :: ds)
    else walkAux fs fuel (dirname (d :: ds))

/-- Ancestor walk from a directory up to (and excluding) the filesystem
root. -/
def walk_ancestors (fs : FS) (start : List String) : Option (List String) :=
  walkAux fs (start.length + 1) start

/-- The `try` body of `validate_repo`: `run_git_command` catches
`CalledProcessError` internally and returns a plain string, so the body
always completes normally — encoded by always producing `Except.ok`. -/
def revParseProbe (env : Env) : Except Unit String :=
  Except.ok (run_git_command env.revParse ["rev-parse", "--git-dir"]).1

/-- Embedding of `GitAnalytics.validate_repo`: returns the success flag and
the (possibly relocated) `repo_path`. The `Except.error` alternative mirrors
the `except subprocess.CalledProcessError` handler with its ancestor walk. -/
def validate_repo (env : Env) : Bool × PyPath :=
  match revParseProbe env with
  | Except.ok _ => (true, env.repoPath)
  | Except.error _ =>
    match walk_ancestors env.fs (abspath env.fs.cwd env.repoPath) with
    | some root => (true, PyPath.mk true root)
    | none => (false, env.repoPath)

/-! ### Commit statistics collector -/

/-- The statistics dictionary of `get_commit_stats`. -/
structure CommitStats where
  total_commits : Nat
  unique_commits : Nat
  recent_commits : Nat
  first_commit : Option String
  last_commit : Option String
  commits_by_branch : List (String × Nat)
  commits_by_year : List (String × Nat)
  commits_by_day : List (String × Nat)
  commits_by_month : List (String × Nat)
deriving DecidableEq

/-- Lines 122-125 of the source: year tokens of the short-date records,
keeping every nonempty record other than the literal line `"0000"`, counted
and ordered by `Counter(...).most_common()`. -/
def yearHistogram (shortDates : List String) : List (String × Nat) :=
  let years := (shortDates.filter (fun l => (l != "") && (l != "0000"))).map
    (fun l => (pySplitChar '-' l).headD "")
  most_common (counterOf years)

/-- Lines 150-160: `"YYYY-MM"` keys from the short-date records. -/
def monthHistogram (shortDates : List String) : List (String × Nat) :=
  let months := (shortDates.filter
      (fun l => (l != "") && decide (2 ≤ (pySplitChar '-' l).length))).map
    (fun l =>
      let parts := pySplitChar '-' l
      parts.headD "" ++ "-" ++ parts.getD 1 "")
  most_common (counterOf months)

/-- Lines 131-142: weekday names of the parseable `%aD` records. -/
def dayHistogram (parse : String → Option String) (fullDates : List String) :
    List (String × Nat) :=
  most_common (counterOf ((fullDates.filter (fun l => l != "")).filterMap parse))

/-- Lines 163-176: per-remote-branch author commit counts; the stripped
record names the ref queried, the displayed key drops every `origin/`, and
only strictly positive counts are recorded. -/
def branchStats (env : Env) : List (String × Nat) :=
  (env.branches.filter (fun b => pyStrip b != "")).foldl
    (fun m b =>
      let bs := pyStrip b
      let branch_name := bs.replace "origin/" ""
      let cnt := ((env.branchLog bs).filter (matchesFilter env.filter)).length
      if 0 < cnt then dictSet m branch_name cnt else m) []

/-- Embedding of `GitAnalytics.get_commit_stats`. `total_commits` counts the
oneline records (duplicates included), `unique_commits` the distinct full
hashes of the same traversal, `recent_commits` the records passing both the
date filter and the extra 30-day bound. -/
def get_commit_stats (env : Env) : CommitStats :=
  let flt := filteredCommits env
  let shortDates := flt.map Commit.shortDate
  let fullDates := flt.map Commit.fullDate
  { total_commits := flt.length
    unique_commits := ((flt.map Commit.hash).dedup).length
    recent_commits := (env.repo.filter
      (fun c => recentPred env.now c && matchesFilter env.filter c)).length
    first_commit := shortDates.getLast?
    last_commit := shortDates.head?
    commits_by_branch := branchStats env
    commits_by_year := if shortDates.isEmpty then [] else yearHistogram shortDates
    commits_by_day :=
      if fullDates.isEmpty then [] else dayHistogram env.parseWeekday fullDates
    commits_by_month := if shortDates.isEmpty then [] else monthHistogram shortDates }

/-! ### Code churn collector -/

/-- The statistics dictionary of `get_lines_of_code`. -/
structure LocStats where
  files_modified : Nat
  total_loc : Nat
  lines_added : Int
  lines_deleted : Int
  net_lines : Int
  files_by_extension : List (String × Nat)
  largest_files : List (String × Nat)
deriving DecidableEq

/-- Model of `os.path.splitext(p)[1]`: the extension of the last path
component, leading dots of the component not counting. -/
def splitextExt (p : String) : String :=
  let base := (pySplitChar '/' p).getLastD ""
  let rest := base.data.dropWhile (fun c => c = '.')
  let r := rest.reverse
  let t := r.takeWhile (fun c => c != '.')
  if t.length = r.length then "" else String.mk ('.' :: t.reverse)

/-- The records of the `--name-only --pretty=format:` listing: per commit a
blank separator record followed by its touched paths. -/
def nameOnlyLines (env : Env) : List String :=
  (filteredCommits env).flatMap (fun c => "" :: c.files)

/-- The records of the `--numstat --pretty=tformat:` listing. -/
def numstatLines (env : Env) : List String :=
  (filteredCommits env).flatMap (fun c => "" :: c.numstat)

/-- Lines 206-219 of the source (the per-file loop): accumulate
`(total_loc, ext_counts, file_sizes)` over the touched paths; a path counts
exactly when `os.path.isfile` holds for it — resolved against the process
working directory — and reading it succeeds. -/
def locLoop (fs : FS) :
    Nat × List (String × Nat) × List (String × Nat) → List String →
    Nat × List (String × Nat) × List (String × Nat)
  | acc, [] => acc
  | acc, fp :: rest =>
    let p := resolveRel fs.cwd fp
    if fs.isfile p then
      match fs.fileLines p with
      | some n =>
        locLoop fs
          (acc.1 + n, dictAdd acc.2.1 (splitextExt fp) n, acc.2.2 ++ [(fp, n)])
          rest
      | none => locLoop fs acc rest
    else locLoop fs acc rest

/-- One iteration of the numstat loop (lines 232-242): nonblank lines with at
least two tab-separated fields contribute their two counts, a `"-"` field
contributing `0`; a `ValueError` in either field skips the line. -/
def numstatStep (acc : Int × Int) (line : String) : Int × Int :=
  if pyStrip line != "" then
    let parts := pySplitChar '\t' line
    if 2 ≤ parts.length then
      let a? := if parts.headD "" = "-" then some (0 : Int)
        else pyInt (parts.headD "")
      let d? := if parts.getD 1 "" = "-" then some (0 : Int)
        else pyInt (parts.getD 1 "")
      match a?, d? with
      | some a, some d => (acc.1 + a, acc.2 + d)
      | _, _ => acc
    else acc
  else acc

/-- `(total_additions, total_deletions)` of the numstat listing. -/
def numstatTotals (lines : List String) : Int × Int :=
  lines.foldl numstatStep (0, 0)

/-- Embedding of `GitAnalytics.get_lines_of_code`. -/
def get_lines_of_code (env : Env) : LocStats :=
  let files := ((nameOnlyLines env).dedup).filter (fun f => pyStrip f != "")
  let r := locLoop env.fs (0, [], []) files
  let t := numstatTotals (numstatLines env)
  { files_modified := files.length
    total_loc := r.1
    lines_added := t.1
    lines_deleted := t.2
    net_lines := t.1 - t.2
    files_by_extension := r.2.1
    largest_files := (insortBy byCountDesc r.2.2).take 10 }

/-! ### Request-count resolver -/

/-- The statistics dictionary of `get_pull_requests`. -/
structure PrStats where
  pull_requests : Nat
  source : String
deriving DecidableEq

/-- Stage 3 (lines 297-322): the GitHub REST fallback, attempted only when
the configured remote url contains `github.com`; only HTTP 200 succeeds,
401/403 print a notice and fall through, a raised error is caught. The
second component logs the external calls made. -/
def prStage3 (env : Env) : PrStats × List String :=
  let remote_url := (run_git_command env.pr.remoteUrl
    ["config", "--get", "remote.origin.url"]).1
  if strHasSub remote_url "github.com" then
    match env.pr.httpResult with
    | some (status, total_count) =>
      if status = 200 then (⟨total_count, "github_api"⟩, ["git config", "http get"])
      else (⟨0, "unknown"⟩, ["git config", "http get"])
    | none => (⟨0, "unknown"⟩, ["git config", "http get"])
  else (⟨0, "unknown"⟩, ["git config"])

/-- Stage 2 (lines 281-294): the GitLab CLI; a missing tool, non-zero exit
or unparseable document falls through to stage 3. -/
def prStage2 (env : Env) : PrStats × List String :=
  if env.pr.glabInstalled then
    match env.pr.glab with
    | ListOutcome.items n => (⟨n, "gitlab_cli"⟩, ["glab mr list"])
    | _ => let r := prStage3 env; (r.1, "glab mr list" :: r.2)
  else let r := prStage3 env; (r.1, "glab mr list" :: r.2)

/-- Embedding of `GitAnalytics.get_pull_requests`, instrumented with the list
of external invocations attempted. Stage 1 (lines 257-279): the GitHub CLI,
guarded by the `gh auth status` probe; an unauthenticated session prints a
notice and falls through without listing. -/
def get_pull_requests (env : Env) : PrStats × List String :=
  if env.pr.ghInstalled then
    if env.pr.ghAuthCode = 0 then
      match env.pr.ghList with
      | ListOutcome.items n =>
        (⟨n, "github_cli"⟩, ["gh auth status", "gh pr list"])
      | _ =>
        let r := prStage2 env
        (r.1, "gh auth status" :: "gh pr list" :: r.2)
    else
      let r := prStage2 env
      (r.1, "gh auth status" :: r.2)
  else
    let r := prStage2 env
    (r.1, "gh auth status" :: r.2)

/-- Does stage 1 succeed (authenticated CLI returning a parseable list)? -/
def stage1Ok (env : Env) : Bool :=
  env.pr.ghInstalled && (env.pr.ghAuthCode = 0) &&
    (match env.pr.ghList with | ListOutcome.items _ => true | _ => false)

/-- Does stage 2 succeed? -/
def stage2Ok (env : Env) : Bool :=
  env.pr.glabInstalled &&
    (match env.pr.glab with | ListOutcome.items _ => true | _ => false)

/-- Does stage 3 succeed (GitHub remote and an HTTP 200 response)? -/
def stage3Ok (env : Env) : Bool :=
  strHasSub (run_git_command env.pr.remoteUrl
    ["config", "--get", "remote.origin.url"]).1 "github.com" &&
  (match env.pr.httpResult with
   | some (status, _) => status = 200
   | none => false)

/-! ### Activity score and report rendering -/

/-- Embedding of `GitAnalytics.calculate_activity_score` (lines 325-329). -/
def calculate_activity_score (stats : CommitStats) : Nat :=
  stats.total_commits * 10 + stats.recent_commits * 50

/-- The `"=" * 50` banner. -/
def starBar : String := String.mk (List.replicate 50 '=')

/-- Embedding of `GitAnalytics._generate_text_report`. -/
def generate_text_report (env : Env) (username : String)
    (commit_stats : CommitStats) (loc_stats : LocStats) (pr_stats : PrStats)
    (activity_score : Nat) : String :=
  let repoName := basename (abspath env.fs.cwd env.repoPath)
  let header : List String := [starBar, "Git Analytics Report", starBar,
    "User: " ++ username,
    "Repository: " ++ repoName,
    "Generated: " ++ env.nowStr]
  let dateRange : List String :=
    if env.filter.startB.isSome || env.filter.endB.isSome then
      let ps := (match env.filter.startB with
          | some s => ["from " ++ toString s]
          | none => []) ++
        (match env.filter.endB with
          | some e => ["until " ++ toString e]
          | none => [])
      ["Date Range: " ++ String.intercalate " " ps]
    else []
  let quick : List String := ["",
    "📊 Quick Stats:",
    "  Total Commits: " ++ toString commit_stats.total_commits,
    "  Unique Commits: " ++ toString commit_stats.unique_commits,
    "  Recent Activity (30 days): " ++ toString commit_stats.recent_commits,
    "  Activity Score: " ++ toString activity_score,
    ""]
  let prs : List String := ["🔀 Pull Requests:",
    "  Count: " ++ toString pr_stats.pull_requests,
    "  Source: " ++ pr_stats.source,
    ""]
  let loc : List String := ["📝 Lines of Code:",
    "  Files Modified: " ++ toString loc_stats.files_modified,
    "  Total LOC: " ++ toString loc_stats.total_loc,
    "  Lines Added: " ++ toString loc_stats.lines_added,
    "  Lines Deleted: " ++ toString loc_stats.lines_deleted,
    "  Net Lines: " ++ toString loc_stats.net_lines,
    ""]
  let exts : List String :=
    if loc_stats.files_by_extension.isEmpty then [] else
      ("📁 Top File Extensions:" ::
        ((insortBy byCountDesc loc_stats.files_by_extension).take 5).map
          (fun p => "  " ++ p.1 ++ ": " ++ toString p.2 ++ " lines")) ++ [""]
  let timeline : List String :=
    match commit_stats.first_commit, commit_stats.last_commit with
    | some fc, some lc =>
      ["📅 Timeline:", "  First Commit: " ++ fc, "  Last Commit: " ++ lc, ""]
    | _, _ => []
  let years : List String :=
    if commit_stats.commits_by_year.isEmpty then [] else
      ("📈 Commits by Year:" ::
        (insortBy pairAscLe commit_stats.commits_by_year).map
          (fun p => "  " ++ p.1 ++ ": " ++ toString p.2 ++ " commits")) ++ [""]
  let days : List String :=
    match maxByCount commit_stats.commits_by_day with
    | some d =>
      ["🗓️  Most Active Day:",
       "  " ++ d.1 ++ ": " ++ toString d.2 ++ " commits", ""]
    | none => []
  String.intercalate "\n"
    (header ++ dateRange ++ quick ++ prs ++ loc ++ exts ++ timeline ++ years ++
      days ++ [starBar, "Report Complete", starBar])

/-- JSON values, for the structured report (`json.dumps`). -/
inductive JVal where
  | str : String → JVal
  | num : Int → JVal
  | null : JVal
  | arr : List JVal → JVal
  | obj : List (String × JVal) → JVal

/-- Minimal JSON string escaping. -/
def jEscapeChar (c : Char) : String :=
  if c = '\x22' then "\\\x22" else if c = '\\' then "\\\\" else String.mk [c]

/-- Escape a string for JSON output. -/
def jEscape (s : String) : String := String.join (s.data.map jEscapeChar)

mutual

/-- Serialize a JSON value (models `json.dumps` up to whitespace; key order
is insertion order, as in Python). -/
def jDump : JVal → String
  | JVal.str s => "\x22" ++ jEscape s ++ "\x22"
  | JVal.num n => toString n
  | JVal.null => "null"
  | JVal.arr l => "[" ++ String.intercalate ", " (jDumpList l) ++ "]"
  | JVal.obj l => "\x7b" ++ String.intercalate ", " (jDumpObj l) ++ "\x7d"

/-- Serialize the elements of a JSON array. -/
def jDumpList : List JVal → List String
  | [] => []
  | v :: vs => jDump v :: jDumpList vs

/-- Serialize the members of a JSON object. -/
def jDumpObj : List (String × JVal) → List String
  | [] => []
  | (k, v) :: vs =>
    ("\x22" ++ jEscape k ++ "\x22: " ++ jDump v) :: jDumpObj vs

end

/-- A frequency dictionary as a JSON object. -/
def histJ (m : List (String × Nat)) : JVal :=
  JVal.obj (m.map (fun p => (p.1, JVal.num (p.2 : Int))))

/-- An optional string as string-or-null. -/
def optStrJ : Option String → JVal
  | some s => JVal.str s
  | none => JVal.null

/-- An optional day number as number-or-null. -/
def optNumJ : Option Nat → JVal
  | some n => JVal.num (n : Int)
  | none => JVal.null

/-- Embedding of `GitAnalytics._generate_json_report`: the structured
document with every field of the report, plus the `date_filter` block when a
bound is set. -/
def generate_json_report (env : Env) (username : String)
    (commit_stats : CommitStats) (loc_stats : LocStats) (pr_stats : PrStats)
    (activity_score : Nat) : String :=
  let commitJ := JVal.obj
    [("total_commits", JVal.num (commit_stats.total_commits : Int)),
     ("unique_commits", JVal.num (commit_stats.unique_commits : Int)),
     ("recent_commits", JVal.num (commit_stats.recent_commits : Int)),
     ("first_commit", optStrJ commit_stats.first_commit),
     ("last_commit", optStrJ commit_stats.last_commit),
     ("commits_by_branch", histJ commit_stats.commits_by_branch),
     ("commits_by_year", histJ commit_stats.commits_by_year),
     ("commits_by_day", histJ commit_stats.commits_by_day),
     ("commits_by_month", histJ commit_stats.commits_by_month)]
  let locJ := JVal.obj
    [("files_modified", JVal.num (loc_stats.files_modified : Int)),
     ("total_loc", JVal.num (loc_stats.total_loc : Int)),
     ("lines_added", JVal.num loc_stats.lines_added),
     ("lines_deleted", JVal.num loc_stats.lines_deleted),
     ("net_lines", JVal.num loc_stats.net_lines),
     ("files_by_extension", histJ loc_stats.files_by_extension),
     ("largest_files", JVal.arr (loc_stats.largest_files.map
       (fun p => JVal.arr [JVal.str p.1, JVal.num (p.2 : Int)])))]
  let prJ := JVal.obj
    [("pull_requests", JVal.num (pr_stats.pull_requests : Int)),
     ("source", JVal.str pr_stats.source)]
  let base :=
    [("user", JVal.str username),
     ("repository", JVal.str (basename (abspath env.fs.cwd env.repoPath))),
     ("generated", JVal.str env.nowStr),
     ("activity_score", JVal.num (activity_score : Int)),
     ("commit_stats", commitJ),
     ("lines_of_code", locJ),
     ("pull_requests", prJ)]
  let full :=
    if env.filter.startB.isSome || env.filter.endB.isSome then
      base ++ [("date_filter", JVal.obj
        [("start_date", optNumJ env.filter.startB),
         ("end_date", optNumJ env.filter.endB)])]
    else base
  jDump (JVal.obj full)

/-- Embedding of `GitAnalytics.generate_report`: locate the repository, check
the user has history, gather the three statistics blocks, compute the score
and dispatch on the output format — `"json"` selects the structured report,
anything else the text report. -/
def generate_report (env : Env) (username : String) (output_format : String) :
    String :=
  if (validate_repo env).1 = false then "Error: Not a Git repository"
  else if check_user_exists env = false then
    "Error: No commits found for user \x27" ++ username ++ "\x27"
  else
    let commit_stats := get_commit_stats env
    let loc_stats := get_lines_of_code env
    let pr_stats := (get_pull_requests env).1
    let activity_score := calculate_activity_score commit_stats
    if output_format = "json" then
      generate_json_report env username commit_stats loc_stats pr_stats
        activity_score
    else
      generate_text_report env username commit_stats loc_stats pr_stats
        activity_score

/-! ### Concrete environments used by witnesses and counterexamples -/

/-- A filesystem with nothing on it. -/
def emptyFS : FS :=
  { cwd := ["home"], isdir := fun _ => false, isfile := fun _ => false,
    fileLines := fun _ => none }

/-- A successful empty command result. -/
def okCmd : CmdResult := ⟨0, "", ""⟩

/-- A pull-request environment in which every source fails. -/
def basePr : PrEnv :=
  { ghInstalled := false, ghAuthCode := 1, ghList := ListOutcome.fail,
    glabInstalled := false, glab := ListOutcome.fail,
    remoteUrl := ⟨1, "", ""⟩, httpResult := none }

/-- One ordinary commit. -/
def commitA : Commit :=
  { hash := "a1b2c3", date := 100, shortDate := "2024-01-01",
    fullDate := "Mon, 01 Jan 2024 00:00:00 +0000",
    files := ["a.txt"], numstat := ["1\t0\ta.txt"] }

/-- A small baseline environment: one commit, no date filter, valid repo. -/
def baseEnv : Env :=
  { repo := [commitA], filter := ⟨none, none⟩, now := 100,
    nowStr := "2026-10-12 00:00:00", branches := [], branchLog := fun _ => [],
    parseWeekday := fun _ => none, fs := emptyFS,
    repoPath := ⟨true, ["repo"]⟩, revParse := okCmd, pr := basePr }

/-! ### Shared helper lemmas -/

/-- The probe branch of `validate_repo` always succeeds, because
`run_git_command` never lets `CalledProcessError` escape. -/
theorem validate_repo_eq (env : Env) : validate_repo env = (true, env.repoPath) := rfl

/-- Adding `v` at key `k` increases the value sum by `v`. -/
theorem sumValues_dictAdd (m : List (String × Nat)) (k : String) (v : Nat) :
    sumValues (dictAdd m k v) = sumValues m + v := by
  induction m with
  | nil => simp [dictAdd, sumValues]
  | cons p rest ih =>
    by_cases h : p.1 = k <;> simp [dictAdd, h, sumValues] at ih ⊢ <;> omega

/-- The per-file loop keeps the value sum of the extension dictionary equal
to the running total line count. -/
theorem locLoop_inv (fs : FS) (files : List String) (t : Nat)
    (m sz : List (String × Nat)) (h : sumValues m = t) :
    sumValues (locLoop fs (t, m, sz) files).2.1 =
      (locLoop fs (t, m, sz) files).1 := by
  induction files generalizing t m sz with
  | nil => simpa [locLoop] using h
  | cons fp rest ih =>
    by_cases hf : fs.isfile (resolveRel fs.cwd fp)
    · cases hl : fs.fileLines (resolveRel fs.cwd fp) with
      | some n =>
        simp only [locLoop, hf, hl, if_true]
        exact ih _ _ _ (by simp [sumValues_dictAdd, h])
      | none =>
        simp only [locLoop, hf, hl, if_true]
        exact ih _ _ _ h
    · simp only [locLoop, hf, if_false]
      exact ih _ _ _ h

/-- Filtering by a conjunction yields at most as many elements as filtering
by one conjunct. -/
theorem length_filter_and_le {α : Type} (l : List α) (p q : α → Bool) :
    (l.filter fun a => p a && q a).length ≤ (l.filter q).length := by
  induction l with
  | nil => simp
  | cons a t ih =>
    by_cases hp : p a <;> by_cases hq : q a <;>
      simp [List.filter_cons, hp, hq] <;> omega

/-- A list is a prefix of itself followed by anything. -/
theorem listPrefixOf_append (y z : List Char) : listPrefixOf y (y ++ z) = true := by
  induction y with
  | nil => rfl
  | cons a as ih => simp [listPrefixOf, ih]

/-- A suffix is a contiguous sublist. -/
theorem listSub_append (x y : List Char) : listSub (x ++ y) y = true := by
  induction x with
  | nil =>
    cases y with
    | nil => rfl
    | cons b bs =>
      have := listPrefixOf_append (b :: bs) []
      simp only [List.append_nil] at this
      simp [listSub, this]
  | cons a as ih =>
    cases y with
    | nil => rfl
    | cons b bs => simp [listSub, ih]

/-- Appending a string makes it a substring of the result. -/
theorem strHasSub_append (a b : String) : strHasSub (a ++ b) b = true := by
  have hd : (a ++ b).data = a.data ++ b.data := by
    cases a; cases b; rfl
  simp [strHasSub, hd, listSub_append]

/-- Stage 3 produces the unknown result whenever it does not succeed. -/
theorem prStage3_fail (env : Env) (h : stage3Ok env = false) :
    (prStage3 env).1 = ⟨0, "unknown"⟩ := by
  unfold stage3Ok at h
  unfold prStage3
  cases hr : strHasSub (run_git_command env.pr.remoteUrl
      ["config", "--get", "remote.origin.url"]).1 "github.com"
  · simp [hr]
  · rw [hr] at h
    simp only [Bool.true_and] at h
    cases hh : env.pr.httpResult with
    | none => simp [hr, hh]
    | some p =>
      rw [hh] at h
      cases p with
      | mk status cnt =>
        simp only [decide_eq_false_iff_not] at h
        simp [hr, hh, h]

/-- Stages 2 and 3 together produce the unknown result whenever neither
succeeds. -/
theorem prStage2_fail (env : Env) (h2 : stage2Ok env = false)
    (h3 : stage3Ok env = false) : (prStage2 env).1 = ⟨0, "unknown"⟩ := by
  unfold stage2Ok at h2
  unfold prStage2
  cases hg : env.pr.glabInstalled
  · simp [hg, prStage3_fail env h3]
  · rw [hg] at h2
    simp only [Bool.true_and] at h2
    cases hl : env.pr.glab with
    | items n => rw [hl] at h2; simp at h2
    | fail => simp [hl, prStage3_fail env h3]
    | badJson => simp [hl, prStage3_fail env h3]

/-! ### Claim theorems -/

/-- An environment in which the same recent commit is surfaced twice by the
all-refs traversal. -/
def dupEnv : Env := { baseEnv with repo := [commitA, commitA] }

/-- C1 counterexample: with a duplicated recent commit the chained inequality
fails — `unique_commits = 1 < 2 = recent_commits` although the history is
non-empty. -/
theorem get_commit_stats_dup_counterexample :
    filteredCommits dupEnv ≠ [] ∧
    ¬ ((get_commit_stats dupEnv).recent_commits ≤
        (get_commit_stats dupEnv).unique_commits) := by decide

/-- C1 (amended): for every repository history and every DateFilter, when the
author's history is non-empty, `total_commits ≥ unique_commits ≥ 1` and
`total_commits ≥ recent_commits ≥ 0`; the middle link
`unique_commits ≥ recent_commits` of the claimed chain does not hold in
general (see the counterexample). -/
theorem get_commit_stats_counts (env : Env) (h : filteredCommits env ≠ []) :
    (get_commit_stats env).unique_commits ≤ (get_commit_stats env).total_commits ∧
    (get_commit_stats env).recent_commits ≤ (get_commit_stats env).total_commits ∧
    1 ≤ (get_commit_stats env).unique_commits := by
  refine ⟨?_, ?_, ?_⟩
  · show ((filteredCommits env).map Commit.hash).dedup.length ≤
      (filteredCommits env).length
    calc ((filteredCommits env).map Commit.hash).dedup.length
        ≤ ((filteredCommits env).map Commit.hash).length :=
          (List.dedup_sublist _).length_le
      _ = (filteredCommits env).length := List.length_map _ _
  · show (env.repo.filter fun c =>
        recentPred env.now c && matchesFilter env.filter c).length ≤
      (filteredCommits env).length
    exact length_filter_and_le env.repo (recentPred env.now)
      (matchesFilter env.filter)
  · show 1 ≤ ((filteredCommits env).map Commit.hash).dedup.length
    have hne : ((filteredCommits env).map Commit.hash).dedup ≠ [] := by
      intro hnil
      rw [List.dedup_eq_nil] at hnil
      exact h (by simpa using hnil)
    have := List.length_pos.2 hne
    omega

/-- Witness for C1 at the baseline environment. -/
theorem get_commit_stats_counts_witness :
    filteredCommits baseEnv ≠ [] ∧
    ((get_commit_stats baseEnv).unique_commits ≤
        (get_commit_stats baseEnv).total_commits ∧
      (get_commit_stats baseEnv).recent_commits ≤
        (get_commit_stats baseEnv).total_commits ∧
      1 ≤ (get_commit_stats baseEnv).unique_commits) :=
  ⟨by decide, get_commit_stats_counts baseEnv (by decide)⟩

/-- C2: the fallback chain is strictly ordered — when the GitHub CLI stage
succeeds the only external calls are its own two, so the GitLab CLI and the
REST API are never invoked; and when all three stages fail the result is
count 0 with source tag unknown. -/
theorem get_pull_requests_chain (env : Env) (n : Nat) :
    (env.pr.ghInstalled = true → env.pr.ghAuthCode = 0 →
      env.pr.ghList = ListOutcome.items n →
      get_pull_requests env =
        (⟨n, "github_cli"⟩, ["gh auth status", "gh pr list"])) ∧
    (stage1Ok env = false → stage2Ok env = false → stage3Ok env = false →
      (get_pull_requests env).1 = ⟨0, "unknown"⟩) := by
  constructor
  · intro h1 h2 h3
    simp [get_pull_requests, h1, h2, h3]
  · intro s1 s2 s3
    have hp2 := prStage2_fail env s2 s3
    unfold get_pull_requests
    unfold stage1Ok at s1
    cases hg : env.pr.ghInstalled
    · simp [hg, hp2]
    · rw [hg] at s1
      simp only [Bool.true_and] at s1
      by_cases ha : env.pr.ghAuthCode = 0
      · cases hl : env.pr.ghList with
        | items m => rw [ha, hl] at s1; simp at s1
        | fail => simp [ha, hl, hp2]
        | badJson => simp [ha, hl, hp2]
      · simp [ha, hp2]

/-- A pull-request environment in which the GitHub CLI is installed,
authenticated and lists four pull requests. -/
def prC2a : PrEnv :=
  { ghInstalled := true, ghAuthCode := 0, ghList := ListOutcome.items 4,
    glabInstalled := false, glab := ListOutcome.fail,
    remoteUrl := ⟨1, "", ""⟩, httpResult := none }

/-- An environment in which stage 1 succeeds with four pull requests. -/
def envC2a : Env := { baseEnv with pr := prC2a }

/-- Witness for C2: a succeeding stage 1 and an all-fail environment. -/
theorem get_pull_requests_chain_witness :
    get_pull_requests envC2a =
      (⟨4, "github_cli"⟩, ["gh auth status", "gh pr list"]) ∧
    (get_pull_requests baseEnv).1 = ⟨0, "unknown"⟩ :=
  ⟨(get_pull_requests_chain envC2a 4).1 (by rfl) (by rfl) (by rfl),
   (get_pull_requests_chain baseEnv 0).2 (by decide) (by decide) (by decide)⟩

/-- An environment whose repository-root probe fails (exit 128) and in which
no ancestor of the configured path contains a `.git` directory. -/
def envC3 : Env :=
  { baseEnv with
    revParse := ⟨128, "", "fatal: not a git repository"⟩
    repoPath := ⟨true, ["nowhere", "sub"]⟩ }

/-- C3: the probe at the path fails and no ancestor qualifies, yet
`validate_repo` still returns success with the path unchanged — the ancestor
walk is dead code, because `run_git_command` catches `CalledProcessError`
itself and the `except` handler around the probe can never fire. -/
theorem validate_repo_dead_fallback :
    envC3.revParse.returncode ≠ 0 ∧
    walk_ancestors envC3.fs (abspath envC3.fs.cwd envC3.repoPath) = none ∧
    validate_repo envC3 = (true, envC3.repoPath) := by decide

/-- An environment whose only commit carries the sentinel author date
`0000-01-01`. -/
def envC4 : Env :=
  { baseEnv with repo := [{ commitA with shortDate := "0000-01-01" }] }

/-- C4: the year histogram does not exclude the sentinel year — the filter
compares the whole date line with the string `0000`, so the short-date line
`0000-01-01` passes it and contributes the year key `0000`. -/
theorem commits_by_year_keeps_sentinel :
    (get_commit_stats envC4).commits_by_year = [("0000", 1)] := by decide

/-- C5 counterexample: for the failing command result with exit status 7 the
diagnostics name the command and the error text but no diagnostic line
contains `7`, the decimal rendering of the exit status — so the failure
report does not include the exit status. -/
theorem run_git_command_counterexample :
    (⟨7, "out", "boom"⟩ : CmdResult).returncode ≠ 0 ∧
    ((run_git_command ⟨7, "out", "boom"⟩ ["log"]).2.any fun d =>
      strHasSub d "7") = false := by decide

/-- C5 (amended): on success `run_git_command` returns the trimmed standard
output and no diagnostics; on non-zero exit it returns the empty string and
prints diagnostics naming the command and the captured error text (the exit
status is not part of the diagnostics). -/
theorem run_git_command_behavior (r : CmdResult) (cmd : List String) :
    (r.returncode = 0 → run_git_command r cmd = (pyStrip r.stdout, [])) ∧
    (r.returncode ≠ 0 →
      (run_git_command r cmd).1 = "" ∧
      ((run_git_command r cmd).2.any fun d =>
        strHasSub d (String.intercalate " " cmd)) = true ∧
      ((run_git_command r cmd).2.any fun d => strHasSub d r.stderr) = true) := by
  constructor
  · intro h
    simp [run_git_command, h]
  · intro h
    simp [run_git_command, h, strHasSub_append]

/-- Witness for C5 at a succeeding and a failing command result. -/
theorem run_git_command_behavior_witness :
    run_git_command ⟨0, " ok ", ""⟩ ["log"] = (pyStrip " ok ", []) ∧
    ((run_git_command ⟨2, "", "boom"⟩ ["status"]).1 = "" ∧
      ((run_git_command ⟨2, "", "boom"⟩ ["status"]).2.any fun d =>
        strHasSub d (String.intercalate " " ["status"])) = true ∧
      ((run_git_command ⟨2, "", "boom"⟩ ["status"]).2.any fun d =>
        strHasSub d "boom") = true) :=
  ⟨(run_git_command_behavior ⟨0, " ok ", ""⟩ ["log"]).1 rfl,
   (run_git_command_behavior ⟨2, "", "boom"⟩ ["status"]).2 (by decide)⟩

/-- Per-line numstat contribution: the two count fields of a well-formed
line, `0` for a `-` field, `(0, 0)` for blank, short or malformed lines. -/
def numstatContrib (line : String) : Int × Int :=
  if pyStrip line != "" then
    let parts := pySplitChar '\t' line
    if 2 ≤ parts.length then
      let a? := if parts.headD "" = "-" then some (0 : Int)
        else pyInt (parts.headD "")
      let d? := if parts.getD 1 "" = "-" then some (0 : Int)
        else pyInt (parts.getD 1 "")
      match a?, d? with
      | some a, some d => (a, d)
      | _, _ => (0, 0)
    else (0, 0)
  else (0, 0)

/-- One numstat step adds exactly the line's contribution to each total. -/
theorem numstatStep_eq (acc : Int × Int) (line : String) :
    numstatStep acc line =
      (acc.1 + (numstatContrib line).1, acc.2 + (numstatContrib line).2) := by
  unfold numstatStep numstatContrib
  by_cases h1 : pyStrip line != ""
  · simp only [h1, if_true]
    by_cases h2 : 2 ≤ (pySplitChar '\t' line).length
    · simp only [h2, if_true]
      cases ha : (if (pySplitChar '\t' line).headD "" = "-" then some (0 : Int)
          else pyInt ((pySplitChar '\t' line).headD "")) with
      | none => cases hd : (if (pySplitChar '\t' line).getD 1 "" = "-"
            then some (0 : Int)
            else pyInt ((pySplitChar '\t' line).getD 1 "")) <;> simp
      | some a => cases hd : (if (pySplitChar '\t' line).getD 1 "" = "-"
            then some (0 : Int)
            else pyInt ((pySplitChar '\t' line).getD 1 "")) <;> simp
    · simp [h2]
  · simp [h1]

/-- Folding the numstat loop from any start adds the two independent sums. -/
theorem foldl_numstatStep (lines : List String) (acc : Int × Int) :
    lines.foldl numstatStep acc =
      (acc.1 + (lines.map (fun l => (numstatContrib l).1)).sum,
       acc.2 + (lines.map (fun l => (numstatContrib l).2)).sum) := by
  induction lines generalizing acc with
  | nil => simp
  | cons l t ih =>
    rw [List.foldl_cons, numstatStep_eq, ih]
    simp [List.map_cons, List.sum_cons, add_assoc]

/-- An environment whose only commit touches a text file and a binary file,
the scenario of the claim. -/
def envC6 : Env :=
  { baseEnv with repo :=
      [{ commitA with numstat := ["3\t1\tREADME.md", "-\t-\timage.png"] }] }

/-- An environment in which more lines are deleted than added. -/
def envC6neg : Env :=
  { baseEnv with repo := [{ commitA with numstat := ["0\t4\tf.txt"] }] }

/-- C6: `lines_added` and `lines_deleted` are the independent sums of the
per-line added/deleted contributions (a `-` field contributing zero and
malformed lines skipped), `net_lines = lines_added − lines_deleted` and may
be negative; in particular the listing of a `3 1 README.md` record plus a
binary-marker record yields 3 added and 1 deleted. -/
theorem get_lines_of_code_numstat (env : Env) :
    ((get_lines_of_code env).lines_added =
        ((numstatLines env).map (fun l => (numstatContrib l).1)).sum ∧
      (get_lines_of_code env).lines_deleted =
        ((numstatLines env).map (fun l => (numstatContrib l).2)).sum ∧
      (get_lines_of_code env).net_lines =
        (get_lines_of_code env).lines_added -
          (get_lines_of_code env).lines_deleted) ∧
    ((get_lines_of_code envC6).lines_added = 3 ∧
      (get_lines_of_code envC6).lines_deleted = 1 ∧
      (get_lines_of_code envC6neg).net_lines = -4) := by
  constructor
  · refine ⟨?_, ?_, rfl⟩
    · show (numstatTotals (numstatLines env)).1 = _
      rw [numstatTotals, foldl_numstatStep]
      simp
    · show (numstatTotals (numstatLines env)).2 = _
      rw [numstatTotals, foldl_numstatStep]
      simp
  · refine ⟨by decide, by decide, by decide⟩

/-- C7: the activity score is exactly ten times the total commit count plus
fifty times the recent commit count, for every statistics value including
zeros. -/
theorem calculate_activity_score_formula (stats : CommitStats) :
    calculate_activity_score stats =
      10 * stats.total_commits + 50 * stats.recent_commits := by
  unfold calculate_activity_score
  ring

/-- A filesystem on which `a.txt` exists only inside the repository root
`/repo`, while the process working directory is `/home/user`. -/
def fsC8 : FS :=
  { cwd := ["home", "user"], isdir := fun _ => false,
    isfile := fun p => p = ["repo", "a.txt"],
    fileLines := fun p => if p = ["repo", "a.txt"] then some 5 else none }

/-- The environment of the C8 scenario. -/
def envC8 : Env := { baseEnv with fs := fsC8 }

/-- C8: the touched file exists as a regular file under the resolved
repository root, yet contributes nothing to `total_loc` or
`files_by_extension`, because the code resolves the relative path against
the process working directory instead of the repository root. -/
theorem loc_counts_use_cwd_not_root :
    (validate_repo envC8).2 = PyPath.mk true ["repo"] ∧
    envC8.fs.isfile
      (abspath envC8.fs.cwd (validate_repo envC8).2 ++ ["a.txt"]) = true ∧
    (get_lines_of_code envC8).files_modified = 1 ∧
    (get_lines_of_code envC8).total_loc = 0 ∧
    (get_lines_of_code envC8).files_by_extension = [] := by decide

/-- C9: the values of `files_by_extension` always sum to `total_loc` — every
counted file's line count lands in exactly one extension bucket. -/
theorem files_by_extension_sums_to_total (env : Env) :
    sumValues (get_lines_of_code env).files_by_extension =
      (get_lines_of_code env).total_loc := by
  show sumValues (locLoop env.fs (0, [], []) _).2.1 =
    (locLoop env.fs (0, [], []) _).1
  exact locLoop_inv env.fs _ 0 [] [] rfl

/-- C10: every output format other than the exact string `json` produces the
text rendering, and `json` alone selects the structured document, whenever
report generation reaches the rendering stage. -/
theorem generate_report_dispatch (env : Env) (username output_format : String)
    (hu : check_user_exists env = true) (hf : output_format ≠ "json") :
    generate_report env username output_format =
      generate_text_report env username (get_commit_stats env)
        (get_lines_of_code env) (get_pull_requests env).1
        (calculate_activity_score (get_commit_stats env)) ∧
    generate_report env username "json" =
      generate_json_report env username (get_commit_stats env)
        (get_lines_of_code env) (get_pull_requests env).1
        (calculate_activity_score (get_commit_stats env)) := by
  have hv : (validate_repo env).1 = true := by rw [validate_repo_eq]
  constructor
  · simp [generate_report, hv, hu, hf]
  · simp [generate_report, hv, hu]

/-- Witness for C10: the format string `structured` (a value the spec's CLI
surface even mentions) selects the text rendering. -/
theorem generate_report_dispatch_witness :
    check_user_exists baseEnv = true ∧ ("structured" : String) ≠ "json" ∧
    (generate_report baseEnv "alice" "structured" =
        generate_text_report baseEnv "alice" (get_commit_stats baseEnv)
          (get_lines_of_code baseEnv) (get_pull_requests baseEnv).1
          (calculate_activity_score (get_commit_stats baseEnv)) ∧
      generate_report baseEnv "alice" "json" =
        generate_json_report baseEnv "alice" (get_commit_stats baseEnv)
          (get_lines_of_code baseEnv) (get_pull_requests baseEnv).1
          (calculate_activity_score (get_commit_stats baseEnv))) :=
  ⟨by decide, by decide,
   generate_report_dispatch baseEnv "alice" "structured" (by decide) (by decide)⟩

end GitStat
